import Mathlib

/-!
Verification development for the efibootguard environment tool
(`tools/bg_setenv.c`).  The C source is shallowly embedded: pure C
functions become Lean functions, the global action journal becomes an
explicit list threaded through the definitions, machine integers become
`Nat`/`Int` with explicit reductions modulo `2 ^ w` where the C code relies
on fixed-width behaviour, and fallible operations return `Option`/`Except`.

Library functions that the tool calls but whose implementation lives
outside the embedded translation unit (`bgenv_set`, the global-state
setter, the `USTATE_*`/`ENV_*` constants, ...) are modelled from the
natural-language specification; each such definition carries a doc
comment starting with "Modelled from the spec:".
-/

set_option maxRecDepth 100000

namespace BgSetenv

/-! ## Machine integer constants (64-bit Linux ABI, as used by the tool) -/

def LONG_MAX : Int := 2 ^ 63 - 1
def LONG_MIN : Int := -(2 ^ 63)
def INT_MAX : Int := 2 ^ 31 - 1
def INT_MIN : Int := -(2 ^ 31)

/-! ## Model of `strtol(arg, &endptr, 10)`

`strtol` skips leading white space, accepts an optional sign and a run of
decimal digits, clamps the value to `[LONG_MIN, LONG_MAX]` setting `errno`
to `ERANGE` on overflow, and leaves `endptr` pointing at the first
unconsumed character (at the start of the input when no digits were
consumed).  The only `errno` value `strtol` itself produces for base 10 is
`ERANGE`, which the model exposes as the `erange` flag. -/

structure StrtolResult where
  /-- the returned `long`, already clamped on overflow -/
  val : Int
  /-- number of characters consumed (`endptr - arg`); `0` when no
  conversion was performed -/
  consumed : Nat
  /-- whether `errno` was set to `ERANGE` -/
  erange : Bool
deriving Repr, DecidableEq

def isSpaceByte (c : Char) : Bool :=
  c = ' ' || c = '\t' || c = '\n' || c = '\x0b' || c = '\x0c' || c = '\r'

def digitsValue (ds : List Char) : Nat :=
  ds.foldl (fun a c => a * 10 + (c.toNat - 48)) 0

def strtol (s : String) : StrtolResult :=
  let cs := s.data
  let rest1 := cs.dropWhile isSpaceByte
  let wsLen := cs.length - rest1.length
  let signedRest : Int × Nat × List Char :=
    match rest1 with
    | '-' :: r => (-1, 1, r)
    | '+' :: r => (1, 1, r)
    | r => (1, 0, r)
  let sign := signedRest.1
  let signLen := signedRest.2.1
  let digs := (signedRest.2.2).takeWhile Char.isDigit
  if digs.length = 0 then
    ⟨0, 0, false⟩
  else
    let raw : Int := sign * (digitsValue digs : Nat)
    let consumed := wsLen + signLen + digs.length
    if LONG_MAX < raw then ⟨LONG_MAX, consumed, true⟩
    else if raw < LONG_MIN then ⟨LONG_MIN, consumed, true⟩
    else ⟨raw, consumed, false⟩

/-- Model of `parse_int` (bg_setenv.c:262): `strtol` plus rejection of
`ERANGE`, of an empty conversion, of trailing characters (`*tmp != '\0'`)
and of values outside the `int` range.  The C function reports failure
through `errno = EINVAL`; the model returns `none`. -/
def parse_int (arg : String) : Option Int :=
  let r := strtol arg
  if r.erange = true ∨ r.consumed = 0 ∨ r.consumed ≠ arg.data.length ∨
      r.val < INT_MIN ∨ INT_MAX < r.val then
    none
  else
    some r.val

/-! ## Update state (ustate) -/

/-- Modelled from the spec: the update lifecycle states are
`OK=0, INSTALLED=1, TESTING=2, FAILED=3` plus the sentinel `UNKNOWN`,
which is the next table entry after the valid persisted range.  The
enumeration bounds `USTATE_MIN`/`USTATE_MAX` delimit the canonical-name
table walked by the parser; the spec requires the parser to match all four
canonical names `OK/INSTALLED/TESTING/FAILED` (the loop runs for
`USTATE_MIN <= i < USTATE_MAX`), which places `USTATE_MAX` at the index of
the `UNKNOWN` sentinel. -/
def USTATE_OK : Nat := 0
def USTATE_INSTALLED : Nat := 1
def USTATE_TESTING : Nat := 2
def USTATE_FAILED : Nat := 3
def USTATE_UNKNOWN : Nat := 4
def USTATE_MIN : Nat := 0
def USTATE_MAX : Nat := 4

def ustatemap : List String := ["OK", "INSTALLED", "TESTING", "FAILED", "UNKNOWN"]

def lowerByte (c : Char) : Char :=
  if 'A' ≤ c ∧ c ≤ 'Z' then Char.ofNat (c.toNat + 32) else c

/-- Model of `strncasecmp(a, b, n) == 0` on NUL-terminated strings: the
first `n` positions agree case-insensitively, where a position past the
end of a Lean string holds the terminating `'\x00'` and comparison stops
at a common terminator. -/
def strncasecmpEq : List Char → List Char → Nat → Bool
  | _, _, 0 => true
  | a, b, n + 1 =>
    let c1 := a.headD '\x00'
    let c2 := b.headD '\x00'
    if lowerByte c1 ≠ lowerByte c2 then false
    else if c1 = '\x00' then true
    else strncasecmpEq a.tail b.tail n

/-- Model of `strncmp(a, b, n) == 0` with the same NUL-termination
convention. -/
def strncmpEq : List Char → List Char → Nat → Bool
  | _, _, 0 => true
  | a, b, n + 1 =>
    let c1 := a.headD '\x00'
    let c2 := b.headD '\x00'
    if c1 ≠ c2 then false
    else if c1 = '\x00' then true
    else strncmpEq a.tail b.tail n

/-- `strncasecmp(str, name, strlen(name)) == 0` — the comparison performed
by `str2ustate` against one table entry. -/
def nameMatchCI (s name : String) : Bool :=
  strncasecmpEq s.data name.data name.data.length

def str2ustateLoop (s : String) : List Nat → Nat
  | [] => USTATE_UNKNOWN
  | i :: rest =>
    if nameMatchCI s (ustatemap.getD i "") then i else str2ustateLoop s rest

/-- Model of `str2ustate` (bg_setenv.c:219): walk the canonical-name table
for `USTATE_MIN <= i < USTATE_MAX` and return the first case-insensitive
match, `USTATE_UNKNOWN` otherwise.  (The C `NULL`-pointer guard has no
counterpart for Lean strings.) -/
def str2ustate (s : String) : Nat :=
  str2ustateLoop s (List.range USTATE_MAX)

/-- Model of `ustate2str` (bg_setenv.c:234): the argument is a C `uint8_t`
(hence the reduction modulo 256); values above `USTATE_MAX` are clamped to
`USTATE_MAX` before indexing the table. -/
def ustate2str (ustate : Nat) : String :=
  let u := ustate % 256
  let u := if USTATE_MAX < u then USTATE_MAX else u
  ustatemap.getD u ""

/-- Specification-side parser, written from the spec's words: a
case-insensitive prefix match against the canonical names
`OK/INSTALLED/TESTING/FAILED` in order; unmatched input yields
`UNKNOWN`. -/
def ustateSpecParse (s : String) : Nat :=
  if nameMatchCI s "OK" then USTATE_OK
  else if nameMatchCI s "INSTALLED" then USTATE_INSTALLED
  else if nameMatchCI s "TESTING" then USTATE_TESTING
  else if nameMatchCI s "FAILED" then USTATE_FAILED
  else USTATE_UNKNOWN

example : str2ustate "testing" = USTATE_TESTING := by decide
example : str2ustate "Failure" = USTATE_UNKNOWN := by decide
example : str2ustate "FAILED" = USTATE_FAILED := by decide
example : ustate2str 99 = "UNKNOWN" := by decide
example : ustate2str 3 = "FAILED" := by decide
example : parse_int "2" = some 2 := by decide
example : parse_int "2x" = none := by decide
example : parse_int "" = none := by decide
example : (strtol "1x").val = 1 ∧ (strtol "1x").consumed = 1 := by decide

/-! ## The environment record

Modelled from the spec's persisted layout (§3/§6): 32-bit revision, two
fixed-width UTF-16 text fields bounded by `ENV_STRING_LENGTH`, a boolean
in-progress flag, a 16-bit-or-wider ustate, a 32-bit watchdog timeout, a
variable-length typed user-variable area and a trailing 32-bit CRC over
everything before it.  User variables are kept as an ordered association
list `key ↦ (type, value)`; the numeric fields hold the machine value
already reduced to the field width. -/

structure BG_ENVDATA where
  revision : Nat
  kernelfile : String
  kernelparams : String
  in_progress : Nat
  ustate : Nat
  watchdog_timeout_sec : Nat
  userdata : List (String × Nat × String)
  crc32 : Nat
deriving Repr, DecidableEq

/-- Modelled from the spec: the bounded length of the two fixed-width text
fields (`ENV_STRING_LENGTH`). -/
def ENV_STRING_LENGTH : Nat := 255

/-- Modelled from the spec: the fixed compile-time count of redundant
config partitions (`ENV_NUM_CONFIG_PARTS`, two slots in the shipped
layout). -/
def ENV_NUM_CONFIG_PARTS : Nat := 2

/-- Modelled from the spec: low type bits select the primitive kind of a
user variable (here: ascii string). -/
def USERVAR_TYPE_STRING_ASCII : Nat := 1

/-- Modelled from the spec: high type bit marking a value that was never
explicitly set. -/
def USERVAR_TYPE_DEFAULT : Nat := 2 ^ 62

/-- Modelled from the spec: high type bit marking a tombstoned (deleted)
user variable. -/
def USERVAR_TYPE_DELETED : Nat := 2 ^ 63

/-- The record all fields of which `memset(0)` produces. -/
def zeroEnv : BG_ENVDATA :=
  ⟨0, "", "", 0, 0, 0, [], 0⟩

/-! ## Serialization and CRC-32 -/

def bytesLE : Nat → Nat → List Nat
  | 0, _ => []
  | w + 1, v => (v % 256) :: bytesLE w (v / 256)

/-- One fixed-width UTF-16 text field: `ENV_STRING_LENGTH` 16-bit code
units, the string's code points first, the rest zero-padded. -/
def strBytes16 (s : String) : List Nat :=
  (((s.data.take ENV_STRING_LENGTH).map (fun c => bytesLE 2 (c.toNat % 65536))).flatten)
    ++ List.replicate ((ENV_STRING_LENGTH - min s.data.length ENV_STRING_LENGTH) * 2) 0

/-- The user-variable area: per entry the NUL-terminated key, the 64-bit
type tag, a 32-bit payload length and the NUL-terminated value, closed by
the zero sentinel byte. -/
def serializeUservars : List (String × Nat × String) → List Nat
  | [] => [0]
  | (k, ty, v) :: rest =>
    (k.data.map (fun c => c.toNat % 256)) ++ [0] ++ bytesLE 8 ty ++
      bytesLE 4 (v.data.length + 1) ++ (v.data.map (fun c => c.toNat % 256)) ++ [0] ++
      serializeUservars rest

/-- Serialization of everything that precedes the trailing CRC field:
exactly the bytes `crc32(0, data, sizeof(BG_ENVDATA) - sizeof(crc32))`
runs over. -/
def serializeNoCrc (e : BG_ENVDATA) : List Nat :=
  bytesLE 4 e.revision ++ strBytes16 e.kernelfile ++ strBytes16 e.kernelparams ++
    [e.in_progress % 256] ++ bytesLE 2 e.ustate ++ bytesLE 4 e.watchdog_timeout_sec ++
    serializeUservars e.userdata

/-- One shift-and-conditionally-xor round of the reflected CRC-32
polynomial 0xEDB88320. -/
def crc32Round (c : Nat) : Nat :=
  if c % 2 = 1 then (c / 2) ^^^ 0xEDB88320 else c / 2

def crc32Byte (c b : Nat) : Nat :=
  crc32Round (crc32Round (crc32Round (crc32Round
    (crc32Round (crc32Round (crc32Round (crc32Round (c ^^^ (b % 256)))))))))

/-- The zlib `crc32(0, buf, len)` checksum of a byte list. -/
def crc32 (bytes : List Nat) : Nat :=
  (bytes.foldl crc32Byte 0xFFFFFFFF) ^^^ 0xFFFFFFFF

example : crc32 [] = 0 := by decide
-- standard CRC-32 of the ASCII bytes of "123456789"
example : crc32 [49, 50, 51, 52, 53, 54, 55, 56, 57] = 0xCBF43926 := by decide

/-! ## User-variable store and `bgenv_set` -/

/-- In-place overwrite of an association-list entry; a new key is
appended at the end, matching the dense append-only encoding. -/
def setUservar : List (String × Nat × String) → String → Nat → String →
    List (String × Nat × String)
  | [], k, ty, v => [(k, ty, v)]
  | (k', ty', v') :: rest, k, ty, v =>
    if k' = k then (k, ty, v) :: rest else (k', ty', v') :: setUservar rest k ty v

def lookupUservar : List (String × Nat × String) → String → Option (Nat × String)
  | [], _ => none
  | (k', ty', v') :: rest, k => if k' = k then some (ty', v') else lookupUservar rest k

/-- The record-field keys `bgenv_set` recognises; every other key denotes
a user variable. -/
def reservedKey (k : String) : Bool :=
  k == "kernelfile" || k == "kernelparams" || k == "revision" ||
    k == "watchdog_timeout_sec" || k == "in_progress" || k == "ustate"

/-- Modelled from the spec: `bgenv_set` (an external collaborator of the
embedded translation unit) writes/overwrites the record field named by
`key`, or the user variable of that key when no field matches; string
data lands in the text fields verbatim, numeric fields store the decimal
value of the payload reduced to the field width. -/
def bgenv_set (e : BG_ENVDATA) (key : String) (ty : Nat) (value : String) :
    BG_ENVDATA :=
  if key = "kernelfile" then { e with kernelfile := value }
  else if key = "kernelparams" then { e with kernelparams := value }
  else if key = "revision" then
    { e with revision := (((strtol value).val) % (2 ^ 32 : Int)).toNat }
  else if key = "watchdog_timeout_sec" then
    { e with watchdog_timeout_sec := (((strtol value).val) % (2 ^ 32 : Int)).toNat }
  else if key = "in_progress" then
    { e with in_progress := (((strtol value).val) % (2 ^ 8 : Int)).toNat }
  else if key = "ustate" then
    { e with ustate := (((strtol value).val) % (2 ^ 16 : Int)).toNat }
  else { e with userdata := setUservar e.userdata key ty value }

/-! ## The action journal -/

inductive BGENV_TASK where
  | set
  | del
deriving Repr, DecidableEq

structure EnvAction where
  key : String
  type : Nat
  /-- `none` models a `NULL` data pointer -/
  data : Option String
  task : BGENV_TASK
deriving Repr, DecidableEq

/-- Model of `journal_add_action` (bg_setenv.c:140): `STAILQ_INSERT_TAIL`
appends the new action at the tail of the queue.  Allocation failure
(`ENOMEM`) has no counterpart in the model, so the error result is always
`0`. -/
def journal_add_action (j : List EnvAction) (task : BGENV_TASK) (key : String)
    (ty : Nat) (data : Option String) : Nat × List EnvAction :=
  (0, j ++ [⟨key, ty, data, task⟩])

/-- The observable state a journal replay acts on: the open environment
record, the external global update state and the error diagnostics
emitted so far. -/
structure ProcState where
  env : BG_ENVDATA
  global : Option Nat
  errors : List String
deriving Repr, DecidableEq

/-- Modelled from the spec: the global update-state setter
(`ebg_env_setglobalstate`, §6) is a side channel distinct from writing the
ustate field directly into the in-memory record; the model records the
requested value in the session's global state. -/
def ebg_env_setglobalstate (st : ProcState) (ustate : Nat) : ProcState :=
  { st with global := some ustate }

/-- Model of `journal_process_action` (bg_setenv.c:173).  A `SET` whose
key passes `strncmp(key, "ustate", strlen("ustate")+1) == 0` parses the
payload with `strtol` — the C failure test is kept verbatim, with
`errno != 0` standing for `ERANGE`, the only value `strtol` produces
here — and on success hands `(uint16_t)t` to the global-state setter; any
other `SET` and every `DEL` go through `bgenv_set` (a `DEL` writes the
one-byte empty string). -/
def journal_process_action (st : ProcState) (a : EnvAction) : ProcState :=
  match a.task with
  | .set =>
    if strncmpEq a.key.data "ustate".data 7 then
      let arg := a.data.getD ""
      let r := strtol arg
      if (r.erange = true ∧ (r.val = LONG_MAX ∨ r.val = LONG_MIN)) ∨
          (r.erange = true ∧ r.val = 0) ∨ r.consumed = 0 then
        { st with errors := st.errors ++ ["Invalid value for ustate: " ++ arg] }
      else
        ebg_env_setglobalstate st ((r.val % (65536 : Int)).toNat)
    else
      { st with env := bgenv_set st.env a.key a.type (a.data.getD "") }
  | .del =>
    { st with env := bgenv_set st.env a.key a.type "" }

/-- The journal-drain loop of `update_environment` (bg_setenv.c:649):
repeatedly process the head of the queue and remove it; the first
component of the result is the queue left over (always empty). -/
def drainLoop : List EnvAction → ProcState → List EnvAction × ProcState
  | [], st => ([], st)
  | a :: rest, st => drainLoop rest (journal_process_action st a)

/-- Model of `update_environment` (bg_setenv.c:643): drain the journal
into the open record, then store the CRC-32 of everything preceding the
crc field. -/
def update_environment (st : ProcState) (j : List EnvAction) : ProcState :=
  let st' := (drainLoop j st).2
  { st' with env := { st'.env with crc32 := crc32 (serializeNoCrc st'.env) } }

/-- Whether some action of the journal addresses the given key. -/
def touches (j : List EnvAction) (k : String) : Bool :=
  j.any (fun a => a.key == k)

/-! ## Option parsing (`parse_setenv_opt`, `parse_common_opt`) -/

/-- Split a character list at every `'='`. -/
def splitEq : List Char → List (List Char)
  | [] => [[]]
  | c :: rest =>
    let r := splitEq rest
    if c = '=' then [] :: r
    else (c :: r.headD []) :: r.tail

/-- The `strtok(arg, "=")` token sequence: maximal runs of non-`'='`
characters, i.e. the `'='`-split with empty pieces dropped. -/
def strtokTokens (s : String) : List String :=
  ((splitEq s.data).map String.mk).filter (fun t => t ≠ "")

example : strtokTokens "KEY=" = ["KEY"] := by decide
example : strtokTokens "=" = [] := by decide
example : strtokTokens "A=B=C" = ["A", "B", "C"] := by decide
example : strtokTokens "=VAL" = ["VAL"] := by decide

/-- Model of `set_uservars` (bg_setenv.c:242): no first token — succeed
without touching the journal; a key without a second token — enqueue a
`DEL` carrying the default/deleted type flags and no data; otherwise
enqueue a `SET` of the ascii-string type with the second token as
payload. -/
def set_uservars (j : List EnvAction) (arg : String) : Nat × List EnvAction :=
  match strtokTokens arg with
  | [] => (0, j)
  | [key] =>
    journal_add_action j .del key (USERVAR_TYPE_DEFAULT ||| USERVAR_TYPE_DELETED) none
  | key :: value :: _ =>
    journal_add_action j .set key (USERVAR_TYPE_DEFAULT ||| USERVAR_TYPE_STRING_ASCII)
      (some value)

/-- `asprintf("%u", i)` on a C `int`: the value is read back as a 32-bit
unsigned and printed in decimal. -/
def formatU (i : Int) : String :=
  toString ((i % (2 ^ 32 : Int)).toNat)

/-- The `bg_setenv` command-line options the journal/session logic can
receive (`argp` plumbing itself is out of scope). -/
inductive SetenvOpt where
  | optF (arg : String)
  | optP (arg : String)
  | optK (arg : String)
  | optA (arg : String)
  | optS (arg : String)
  | optI (arg : String)
  | optR (arg : String)
  | optW (arg : String)
  | optC
  | optU
  | optX (arg : String)
  | optPreserve
deriving Repr, DecidableEq

structure ArgsSetenv where
  envfilepath : Option String
  which_part : Nat
  part_specified : Bool
  auto_update : Bool
  preserve_env : Bool
  /-- the process-wide action queue, threaded explicitly -/
  journal : List EnvAction
deriving Repr, DecidableEq

def defaultArgs : ArgsSetenv :=
  ⟨none, 0, false, false, false, []⟩

/-- Model of one `parse_setenv_opt`/`parse_common_opt` dispatch
(bg_setenv.c:350 and bg_setenv.c:279).  `-f` keeps only the plain-file
branch (the deprecated directory compatibility mode needs a filesystem
`stat` and is outside the model); `-v`/`-V` only print. -/
def parse_setenv_opt (o : SetenvOpt) (st : ArgsSetenv) : Except Nat ArgsSetenv :=
  match o with
  | .optK arg =>
    if ENV_STRING_LENGTH < arg.length then .error 1
    else .ok { st with journal := st.journal ++ [⟨"kernelfile", 0, some arg, .set⟩] }
  | .optA arg =>
    if ENV_STRING_LENGTH < arg.length then .error 1
    else .ok { st with journal := st.journal ++ [⟨"kernelparams", 0, some arg, .set⟩] }
  | .optS arg =>
    match parse_int arg with
    | some i =>
      if i < 0 ∨ 3 < i then .error 1
      else .ok { st with journal := st.journal ++ [⟨"ustate", 0, some (formatU i), .set⟩] }
    | none =>
      let u := str2ustate arg
      if u = USTATE_UNKNOWN then .error 1
      else if (u : Int) < 0 ∨ 3 < (u : Int) then .error 1
      else .ok { st with journal := st.journal ++ [⟨"ustate", 0, some (formatU u), .set⟩] }
  | .optI arg =>
    match parse_int arg with
    | none => .error 1
    | some i =>
      if i < 0 ∨ 1 < i then .error 1
      else .ok { st with journal := st.journal ++ [⟨"in_progress", 0, some (formatU i), .set⟩] }
  | .optR arg =>
    match parse_int arg with
    | none => .error 1
    | some _ => .ok { st with journal := st.journal ++ [⟨"revision", 0, some arg, .set⟩] }
  | .optW arg =>
    match parse_int arg with
    | none => .error 1
    | some i =>
      if i < 0 then .error 1
      else .ok { st with journal := st.journal ++ [⟨"watchdog_timeout_sec", 0, some arg, .set⟩] }
  | .optC => .ok { st with journal := st.journal ++ [⟨"ustate", 0, some "0", .set⟩] }
  | .optU => .ok { st with auto_update := true }
  | .optX arg =>
    let r := set_uservars st.journal arg
    if r.1 = 0 then .ok { st with journal := r.2 } else .error r.1
  | .optPreserve => .ok { st with preserve_env := true }
  | .optF arg => .ok { st with envfilepath := some arg }
  | .optP arg =>
    match parse_int arg with
    | none => .error 1
    | some i =>
      if 0 ≤ i ∧ i < (ENV_NUM_CONFIG_PARTS : Int) then
        .ok { st with which_part := i.toNat, part_specified := true }
      else .error 1

/-- `argp_parse`: options are processed left to right, stopping at the
first parser error. -/
def parseAllSetenv : List SetenvOpt → ArgsSetenv → Except Nat ArgsSetenv
  | [], st => .ok st
  | o :: rest, st =>
    match parse_setenv_opt o st with
    | .error e => .error e
    | .ok st' => parseAllSetenv rest st'

/-! ## Slot selection and the `bg_setenv` session -/

/-- Modelled from the spec: `bgenv_open_latest` resolves the slot whose
revision is maximal among the readable slots (the store is the list of
decoded records, index = slot number; the first maximal slot wins, the
spec leaves ties unspecified). -/
def bgenv_open_latest (store : List BG_ENVDATA) : Option (Nat × BG_ENVDATA) :=
  store.enum.foldl
    (fun acc p =>
      match acc with
      | none => some p
      | some q => if q.2.revision < p.2.revision then some p else acc)
    none

/-- Modelled from the spec: `bgenv_open_oldest` resolves the slot whose
revision is minimal among the readable slots. -/
def bgenv_open_oldest (store : List BG_ENVDATA) : Option (Nat × BG_ENVDATA) :=
  store.enum.foldl
    (fun acc p =>
      match acc with
      | none => some p
      | some q => if p.2.revision < q.2.revision then some p else acc)
    none

/-- The clone step of the auto-update path (bg_setenv.c:934): `memcpy` the
whole current record into the target slot, then bump the 32-bit revision
of the copy. -/
def cloneForUpdate (cur : BG_ENVDATA) : BG_ENVDATA :=
  { cur with revision := (cur.revision + 1) % 2 ^ 32 }

/-- The record an auto-update session persists: the journal replayed on
top of the cloned-and-bumped latest record, CRC recomputed last. -/
def auto_update_session (cur : BG_ENVDATA) (j : List EnvAction) : BG_ENVDATA :=
  (update_environment ⟨cloneForUpdate cur, none, []⟩ j).env

/-- Model of `dumpenv_to_file` (bg_setenv.c:741): start from the zeroed
record, or from the existing file contents with `-P` (failing when the
file cannot be read), replay the journal, recompute the CRC; the result
is the record written to the stand-alone file. -/
def dumpenv_to_file (fileEnv : Option BG_ENVDATA) (preserve : Bool)
    (j : List EnvAction) : Option BG_ENVDATA :=
  match preserve, fileEnv with
  | true, none => none
  | true, some d => some ((update_environment ⟨d, none, []⟩ j).env)
  | false, _ => some ((update_environment ⟨zeroEnv, none, []⟩ j).env)

/-- What a `bg_setenv` invocation did: its exit status, whether the
redundant store was initialised (`bgenv_init`), and the record written to
a slot / to the stand-alone file, if any. -/
structure SetenvOutcome where
  exitCode : Nat
  initCalled : Bool
  written : Option (Nat × BG_ENVDATA)
  fileWritten : Option BG_ENVDATA
deriving Repr, DecidableEq

/-- Model of the `bg_setenv` entry point (bg_setenv.c:844): no options —
usage error; a parse error aborts before any environment access; `-p`
with `-u` conflict; file mode writes through `dumpenv_to_file` without
touching the redundant store; otherwise the store is initialised and the
target slot (oldest for `-u`, explicit index for `-p`, latest otherwise)
receives the journal output. -/
def bg_setenv_run (opts : List SetenvOpt) (store : List BG_ENVDATA)
    (fileEnv : Option BG_ENVDATA) : SetenvOutcome :=
  match opts with
  | [] => ⟨1, false, none, none⟩
  | _ :: _ =>
    match parseAllSetenv opts defaultArgs with
    | .error e => ⟨e, false, none, none⟩
    | .ok args =>
      if args.auto_update ∧ args.part_specified then ⟨1, false, none, none⟩
      else
        match args.envfilepath with
        | some _ =>
          match dumpenv_to_file fileEnv args.preserve_env args.journal with
          | some d => ⟨0, false, none, some d⟩
          | none => ⟨1, false, none, none⟩
        | none =>
          if args.auto_update then
            match bgenv_open_latest store, bgenv_open_oldest store with
            | some cur, some old =>
              ⟨0, true, some (old.1, auto_update_session cur.2 args.journal), none⟩
            | _, _ => ⟨1, true, none, none⟩
          else
            match
              (if args.part_specified then
                (store.get? args.which_part).map (fun d => (args.which_part, d))
              else bgenv_open_latest store) with
            | some t =>
              ⟨0, true, some (t.1, (update_environment ⟨t.2, none, []⟩ args.journal).env), none⟩
            | none => ⟨1, true, none, none⟩

/-! ## Helper lemmas -/

lemma strncmpEq_succ (a b : List Char) (n : Nat) :
    strncmpEq a b (n + 1) =
      (if a.headD '\x00' ≠ b.headD '\x00' then false
       else if a.headD '\x00' = '\x00' then true
       else strncmpEq a.tail b.tail n) := rfl

lemma strncmpEq_eq_iff :
    ∀ (p l : List Char), '\x00' ∉ l → '\x00' ∉ p →
      (strncmpEq l p (p.length + 1) = true ↔ l = p) := by
  intro p
  induction p with
  | nil =>
    intro l hl _
    cases l with
    | nil => simp [strncmpEq_succ]
    | cons c l' =>
      have hc : c ≠ '\x00' := by intro h; exact hl (by simp [h])
      simp [strncmpEq_succ, hc]
  | cons q p' ih =>
    intro l hl hp
    have hq : q ≠ '\x00' := by intro h; exact hp (by simp [h])
    have hp' : '\x00' ∉ p' := fun h => hp (List.mem_cons_of_mem _ h)
    cases l with
    | nil =>
      have hne : ('\x00' : Char) ≠ q := fun h => hq h.symm
      rw [List.length_cons, strncmpEq_succ]
      simp [hne]
    | cons c l' =>
      have hl' : '\x00' ∉ l' := fun h => hl (List.mem_cons_of_mem _ h)
      by_cases hcq : c = q
      · subst hcq
        have hc : c ≠ '\x00' := by intro h; exact hl (by simp [h])
        rw [List.length_cons, strncmpEq_succ]
        simp only [List.headD_cons, List.tail_cons, ne_eq, not_true_eq_false, if_false,
          ite_not]
        simp [hc, ih l' hl' hp']
      · rw [List.length_cons, strncmpEq_succ]
        simp [hcq]

/-- The special-case test of `journal_process_action` compares
`strlen("ustate") + 1 = 7` characters, so (for keys without embedded NUL)
it holds exactly for the key `"ustate"`. -/
lemma strncmp_ustate_iff (key : String) (h : '\x00' ∉ key.data) :
    (strncmpEq key.data "ustate".data 7 = true ↔ key = "ustate") := by
  have h7 : ("ustate".data.length + 1) = 7 := by decide
  have hnp : '\x00' ∉ "ustate".data := by decide
  rw [← h7, strncmpEq_eq_iff "ustate".data key.data h hnp]
  constructor
  · intro hd
    cases key
    cases hd
    rfl
  · intro he
    rw [he]

lemma strtol_erange_val (s : String) (h : (strtol s).erange = true) :
    (strtol s).val = LONG_MAX ∨ (strtol s).val = LONG_MIN := by
  unfold strtol at h ⊢
  dsimp only at h ⊢
  split_ifs at h ⊢ <;> simp_all

/-- The C failure test of the journal's ustate parse, simplified: with
`errno` only ever set to `ERANGE` and `strtol` clamping on `ERANGE`, the
test is overflow-or-no-digits. -/
lemma ustate_parse_fail_iff (s : String) :
    ((((strtol s).erange = true ∧ ((strtol s).val = LONG_MAX ∨ (strtol s).val = LONG_MIN)) ∨
        ((strtol s).erange = true ∧ (strtol s).val = 0) ∨ (strtol s).consumed = 0)
      ↔ ((strtol s).erange = true ∨ (strtol s).consumed = 0)) := by
  constructor
  · rintro (⟨h, _⟩ | ⟨h, _⟩ | h)
    · exact Or.inl h
    · exact Or.inl h
    · exact Or.inr h
  · rintro (h | h)
    · exact Or.inl ⟨h, strtol_erange_val s h⟩
    · exact Or.inr (Or.inr h)

lemma setUservar_lookup_ne (u : List (String × Nat × String)) (k' k : String)
    (ty : Nat) (v : String) (h : k' ≠ k) :
    lookupUservar (setUservar u k' ty v) k = lookupUservar u k := by
  induction u with
  | nil => simp [setUservar, lookupUservar, h]
  | cons p rest ih =>
    obtain ⟨a, b, c⟩ := p
    by_cases hak : a = k'
    · subst hak
      simp [setUservar, lookupUservar, h]
    · by_cases hk : a = k <;>
        simp [setUservar, lookupUservar, hak, hk, ih, Ne.symm h]

lemma setUservar_lookup_self (u : List (String × Nat × String)) (k : String)
    (ty : Nat) (v : String) :
    lookupUservar (setUservar u k ty v) k = some (ty, v) := by
  induction u with
  | nil => simp [setUservar, lookupUservar]
  | cons p rest ih =>
    obtain ⟨a, b, c⟩ := p
    by_cases hak : a = k <;> simp [setUservar, lookupUservar, hak, ih]

lemma bgenv_set_revision (e : BG_ENVDATA) (key : String) (ty : Nat) (v : String)
    (h : key ≠ "revision") : (bgenv_set e key ty v).revision = e.revision := by
  unfold bgenv_set; split_ifs <;> simp_all

lemma bgenv_set_kernelfile (e : BG_ENVDATA) (key : String) (ty : Nat) (v : String)
    (h : key ≠ "kernelfile") : (bgenv_set e key ty v).kernelfile = e.kernelfile := by
  unfold bgenv_set; split_ifs <;> simp_all

lemma bgenv_set_kernelparams (e : BG_ENVDATA) (key : String) (ty : Nat) (v : String)
    (h : key ≠ "kernelparams") : (bgenv_set e key ty v).kernelparams = e.kernelparams := by
  unfold bgenv_set; split_ifs <;> simp_all

lemma bgenv_set_in_progress (e : BG_ENVDATA) (key : String) (ty : Nat) (v : String)
    (h : key ≠ "in_progress") : (bgenv_set e key ty v).in_progress = e.in_progress := by
  unfold bgenv_set; split_ifs <;> simp_all

lemma bgenv_set_ustate (e : BG_ENVDATA) (key : String) (ty : Nat) (v : String)
    (h : key ≠ "ustate") : (bgenv_set e key ty v).ustate = e.ustate := by
  unfold bgenv_set; split_ifs <;> simp_all

lemma bgenv_set_watchdog (e : BG_ENVDATA) (key : String) (ty : Nat) (v : String)
    (h : key ≠ "watchdog_timeout_sec") :
    (bgenv_set e key ty v).watchdog_timeout_sec = e.watchdog_timeout_sec := by
  unfold bgenv_set; split_ifs <;> simp_all

lemma bgenv_set_crc32_field (e : BG_ENVDATA) (key : String) (ty : Nat) (v : String) :
    (bgenv_set e key ty v).crc32 = e.crc32 := by
  unfold bgenv_set; split_ifs <;> simp_all

lemma bgenv_set_lookup_ne (e : BG_ENVDATA) (key : String) (ty : Nat) (v : String)
    (k : String) (h : key ≠ k) :
    lookupUservar (bgenv_set e key ty v).userdata k = lookupUservar e.userdata k := by
  unfold bgenv_set; split_ifs <;> simp_all [setUservar_lookup_ne]

/-- Both outcomes of the special-cased "ustate" path (parse error or
global-state delegation) leave the open record untouched. -/
lemma jpa_special_env (st : ProcState) (a : EnvAction) (htask : a.task = .set)
    (hcmp : strncmpEq a.key.data "ustate".data 7 = true) :
    (journal_process_action st a).env = st.env := by
  obtain ⟨k, ty, d, task⟩ := a
  cases htask
  unfold journal_process_action
  dsimp only at hcmp ⊢
  rw [if_pos hcmp]
  split_ifs <;> rfl

lemma jpa_env_eq (st : ProcState) (a : EnvAction) (htask : a.task = .set)
    (hcmp : strncmpEq a.key.data "ustate".data 7 = false) :
    journal_process_action st a =
      { st with env := bgenv_set st.env a.key a.type (a.data.getD "") } := by
  obtain ⟨k, ty, d, task⟩ := a
  cases htask
  unfold journal_process_action
  dsimp only at hcmp ⊢
  rw [if_neg (by simp [hcmp])]

lemma jpa_revision (st : ProcState) (a : EnvAction) (h : a.key ≠ "revision") :
    (journal_process_action st a).env.revision = st.env.revision := by
  obtain ⟨k, ty, d, task⟩ := a
  cases task <;> unfold journal_process_action <;> dsimp only
  · split_ifs <;> simp_all [ebg_env_setglobalstate, bgenv_set_revision]
  · simp_all [bgenv_set_revision]

lemma jpa_kernelfile (st : ProcState) (a : EnvAction) (h : a.key ≠ "kernelfile") :
    (journal_process_action st a).env.kernelfile = st.env.kernelfile := by
  obtain ⟨k, ty, d, task⟩ := a
  cases task <;> unfold journal_process_action <;> dsimp only
  · split_ifs <;> simp_all [ebg_env_setglobalstate, bgenv_set_kernelfile]
  · simp_all [bgenv_set_kernelfile]

lemma jpa_kernelparams (st : ProcState) (a : EnvAction) (h : a.key ≠ "kernelparams") :
    (journal_process_action st a).env.kernelparams = st.env.kernelparams := by
  obtain ⟨k, ty, d, task⟩ := a
  cases task <;> unfold journal_process_action <;> dsimp only
  · split_ifs <;> simp_all [ebg_env_setglobalstate, bgenv_set_kernelparams]
  · simp_all [bgenv_set_kernelparams]

lemma jpa_in_progress (st : ProcState) (a : EnvAction) (h : a.key ≠ "in_progress") :
    (journal_process_action st a).env.in_progress = st.env.in_progress := by
  obtain ⟨k, ty, d, task⟩ := a
  cases task <;> unfold journal_process_action <;> dsimp only
  · split_ifs <;> simp_all [ebg_env_setglobalstate, bgenv_set_in_progress]
  · simp_all [bgenv_set_in_progress]

lemma jpa_ustate (st : ProcState) (a : EnvAction) (h : a.key ≠ "ustate") :
    (journal_process_action st a).env.ustate = st.env.ustate := by
  obtain ⟨k, ty, d, task⟩ := a
  cases task <;> unfold journal_process_action <;> dsimp only
  · split_ifs <;> simp_all [ebg_env_setglobalstate, bgenv_set_ustate]
  · simp_all [bgenv_set_ustate]

lemma jpa_watchdog (st : ProcState) (a : EnvAction)
    (h : a.key ≠ "watchdog_timeout_sec") :
    (journal_process_action st a).env.watchdog_timeout_sec =
      st.env.watchdog_timeout_sec := by
  obtain ⟨k, ty, d, task⟩ := a
  cases task <;> unfold journal_process_action <;> dsimp only
  · split_ifs <;> simp_all [ebg_env_setglobalstate, bgenv_set_watchdog]
  · simp_all [bgenv_set_watchdog]

lemma jpa_lookup (st : ProcState) (a : EnvAction) (k : String) (h : a.key ≠ k) :
    lookupUservar (journal_process_action st a).env.userdata k =
      lookupUservar st.env.userdata k := by
  obtain ⟨k', ty, d, task⟩ := a
  cases task <;> unfold journal_process_action <;> dsimp only
  · split_ifs <;> simp_all [ebg_env_setglobalstate, bgenv_set_lookup_ne]
  · simp_all [bgenv_set_lookup_ne]

lemma drainLoop_cons (a : EnvAction) (rest : List EnvAction) (st : ProcState) :
    drainLoop (a :: rest) st = drainLoop rest (journal_process_action st a) := rfl

/-- Any per-state observation preserved by every action of a journal is
preserved by draining it. -/
lemma drainLoop_preserve {α : Type} (P : ProcState → α) (j : List EnvAction)
    (st : ProcState)
    (h : ∀ a ∈ j, ∀ st', P (journal_process_action st' a) = P st') :
    P (drainLoop j st).2 = P st := by
  induction j generalizing st with
  | nil => rfl
  | cons a rest ih =>
    rw [drainLoop_cons,
      ih _ (fun b hb st' => h b (List.mem_cons_of_mem a hb) st'),
      h a (List.mem_cons_self a rest) st]

lemma drainLoop_fst (j : List EnvAction) (st : ProcState) :
    (drainLoop j st).1 = [] := by
  induction j generalizing st with
  | nil => rfl
  | cons a rest ih => rw [drainLoop_cons]; exact ih _

lemma drainLoop_append (j1 j2 : List EnvAction) (st : ProcState) :
    drainLoop (j1 ++ j2) st = drainLoop j2 (drainLoop j1 st).2 := by
  induction j1 generalizing st with
  | nil => rfl
  | cons a rest ih => rw [List.cons_append, drainLoop_cons, drainLoop_cons, ih]

lemma touches_false {j : List EnvAction} {k : String} (h : touches j k = false) :
    ∀ a ∈ j, a.key ≠ k := by
  intro a ha hk
  have ht : touches j k = true := by
    simp only [touches, List.any_eq_true]
    exact ⟨a, ha, by simp [hk]⟩
  rw [ht] at h
  exact absurd h (by simp)

/-! ### CRC independence: no journal action reads or writes the stored crc -/

def setCrcSt (st : ProcState) (c : Nat) : ProcState :=
  { st with env := { st.env with crc32 := c } }

lemma bgenv_set_setCrc (e : BG_ENVDATA) (key : String) (ty : Nat) (v : String)
    (c : Nat) :
    bgenv_set { e with crc32 := c } key ty v =
      { bgenv_set e key ty v with crc32 := c } := by
  unfold bgenv_set; split_ifs <;> rfl

lemma jpa_setCrc (st : ProcState) (a : EnvAction) (c : Nat) :
    journal_process_action (setCrcSt st c) a =
      setCrcSt (journal_process_action st a) c := by
  obtain ⟨k, ty, d, task⟩ := a
  cases task <;> unfold journal_process_action <;> dsimp only
  · split_ifs <;> simp [setCrcSt, ebg_env_setglobalstate, bgenv_set_setCrc]
  · simp [setCrcSt, bgenv_set_setCrc]

lemma drainLoop_setCrc (j : List EnvAction) (st : ProcState) (c : Nat) :
    (drainLoop j (setCrcSt st c)).2 = setCrcSt (drainLoop j st).2 c := by
  induction j generalizing st with
  | nil => rfl
  | cons a rest ih => rw [drainLoop_cons, drainLoop_cons, jpa_setCrc, ih]

lemma serializeNoCrc_setCrc (e : BG_ENVDATA) (c : Nat) :
    serializeNoCrc { e with crc32 := c } = serializeNoCrc e := rfl

lemma strncmp_ustate_false (k : String) (hnul : '\x00' ∉ k.data)
    (hne : k ≠ "ustate") : strncmpEq k.data "ustate".data 7 = false := by
  cases hb : strncmpEq k.data "ustate".data 7
  · rfl
  · exact absurd ((strncmp_ustate_iff k hnul).mp hb) hne

lemma reservedKey_split (k : String) (h : reservedKey k = false) :
    k ≠ "kernelfile" ∧ k ≠ "kernelparams" ∧ k ≠ "revision" ∧
      k ≠ "watchdog_timeout_sec" ∧ k ≠ "in_progress" ∧ k ≠ "ustate" := by
  simp only [reservedKey, Bool.or_eq_false_iff, beq_eq_false_iff_ne, ne_eq] at h
  exact ⟨h.1.1.1.1.1, h.1.1.1.1.2, h.1.1.1.2, h.1.1.2, h.1.2, h.2⟩

lemma bgenv_set_unreserved (e : BG_ENVDATA) (k : String) (ty : Nat) (v : String)
    (h : reservedKey k = false) :
    bgenv_set e k ty v = { e with userdata := setUservar e.userdata k ty v } := by
  obtain ⟨h1, h2, h3, h4, h5, h6⟩ := reservedKey_split k h
  unfold bgenv_set
  rw [if_neg h1, if_neg h2, if_neg h3, if_neg h4, if_neg h5, if_neg h6]

lemma jpa_del_eq (st : ProcState) (k : String) (ty : Nat) (d : Option String) :
    journal_process_action st ⟨k, ty, d, .del⟩ =
      { st with env := bgenv_set st.env k ty "" } := rfl

lemma drainLoop_revision (j : List EnvAction) (st : ProcState)
    (h : ∀ a ∈ j, a.key ≠ "revision") :
    (drainLoop j st).2.env.revision = st.env.revision :=
  drainLoop_preserve (fun s => s.env.revision) j st
    (fun a ha st' => jpa_revision st' a (h a ha))

lemma drainLoop_kernelfile (j : List EnvAction) (st : ProcState)
    (h : ∀ a ∈ j, a.key ≠ "kernelfile") :
    (drainLoop j st).2.env.kernelfile = st.env.kernelfile :=
  drainLoop_preserve (fun s => s.env.kernelfile) j st
    (fun a ha st' => jpa_kernelfile st' a (h a ha))

lemma drainLoop_kernelparams (j : List EnvAction) (st : ProcState)
    (h : ∀ a ∈ j, a.key ≠ "kernelparams") :
    (drainLoop j st).2.env.kernelparams = st.env.kernelparams :=
  drainLoop_preserve (fun s => s.env.kernelparams) j st
    (fun a ha st' => jpa_kernelparams st' a (h a ha))

lemma drainLoop_in_progress (j : List EnvAction) (st : ProcState)
    (h : ∀ a ∈ j, a.key ≠ "in_progress") :
    (drainLoop j st).2.env.in_progress = st.env.in_progress :=
  drainLoop_preserve (fun s => s.env.in_progress) j st
    (fun a ha st' => jpa_in_progress st' a (h a ha))

lemma drainLoop_ustate (j : List EnvAction) (st : ProcState)
    (h : ∀ a ∈ j, a.key ≠ "ustate") :
    (drainLoop j st).2.env.ustate = st.env.ustate :=
  drainLoop_preserve (fun s => s.env.ustate) j st
    (fun a ha st' => jpa_ustate st' a (h a ha))

lemma drainLoop_watchdog (j : List EnvAction) (st : ProcState)
    (h : ∀ a ∈ j, a.key ≠ "watchdog_timeout_sec") :
    (drainLoop j st).2.env.watchdog_timeout_sec = st.env.watchdog_timeout_sec :=
  drainLoop_preserve (fun s => s.env.watchdog_timeout_sec) j st
    (fun a ha st' => jpa_watchdog st' a (h a ha))

lemma drainLoop_lookup (j : List EnvAction) (st : ProcState) (k : String)
    (h : ∀ a ∈ j, a.key ≠ k) :
    lookupUservar (drainLoop j st).2.env.userdata k =
      lookupUservar st.env.userdata k :=
  drainLoop_preserve (fun s => lookupUservar s.env.userdata k) j st
    (fun a ha st' => jpa_lookup st' a k (h a ha))

lemma jpa_global (st : ProcState) (a : EnvAction) (hne : a.key ≠ "ustate")
    (hnul : '\x00' ∉ a.key.data) :
    (journal_process_action st a).global = st.global := by
  obtain ⟨k, ty, d, task⟩ := a
  cases task
  · rw [jpa_env_eq _ _ rfl (strncmp_ustate_false k hnul hne)]
  · rfl

lemma drainLoop_global (j : List EnvAction) (st : ProcState)
    (h : ∀ a ∈ j, a.key ≠ "ustate" ∧ '\x00' ∉ a.key.data) :
    (drainLoop j st).2.global = st.global :=
  drainLoop_preserve (fun s => s.global) j st
    (fun a ha st' => jpa_global st' a (h a ha).1 (h a ha).2)

/-- The successful branch of the special-cased ustate path: the parsed
payload, cast to `uint16_t`, goes to the global-state setter and nothing
else changes. -/
lemma jpa_ustate_success (st : ProcState) (ty : Nat) (s : String)
    (he : (strtol s).erange = false) (hc : (strtol s).consumed ≠ 0) :
    journal_process_action st ⟨"ustate", ty, some s, .set⟩ =
      { st with global := some (((strtol s).val % (65536 : Int)).toNat) } := by
  have hcond : ¬ ((((strtol s).erange = true ∧
      ((strtol s).val = LONG_MAX ∨ (strtol s).val = LONG_MIN)) ∨
        ((strtol s).erange = true ∧ (strtol s).val = 0) ∨
        (strtol s).consumed = 0)) := by
    intro hx
    rcases (ustate_parse_fail_iff s).mp hx with h | h
    · rw [he] at h; exact Bool.noConfusion h
    · exact hc h
  unfold journal_process_action
  dsimp only [Option.getD]
  rw [if_pos (by decide), if_neg hcond]
  rfl

lemma jpa_set_kernelfile (st : ProcState) (ty : Nat) (v : String) :
    journal_process_action st ⟨"kernelfile", ty, some v, .set⟩ =
      { st with env := { st.env with kernelfile := v } } := rfl

lemma jpa_set_kernelparams (st : ProcState) (ty : Nat) (v : String) :
    journal_process_action st ⟨"kernelparams", ty, some v, .set⟩ =
      { st with env := { st.env with kernelparams := v } } := rfl

lemma jpa_set_revision (st : ProcState) (ty : Nat) (v : String) :
    journal_process_action st ⟨"revision", ty, some v, .set⟩ =
      { st with env :=
        { st.env with revision := (((strtol v).val) % (2 ^ 32 : Int)).toNat } } := rfl

lemma jpa_set_watchdog (st : ProcState) (ty : Nat) (v : String) :
    journal_process_action st ⟨"watchdog_timeout_sec", ty, some v, .set⟩ =
      { st with env :=
        { st.env with
          watchdog_timeout_sec := (((strtol v).val) % (2 ^ 32 : Int)).toNat } } := rfl

lemma jpa_set_in_progress (st : ProcState) (ty : Nat) (v : String) :
    journal_process_action st ⟨"in_progress", ty, some v, .set⟩ =
      { st with env :=
        { st.env with in_progress := (((strtol v).val) % (2 ^ 8 : Int)).toNat } } := rfl

lemma parseAllSetenv_append (xs ys : List SetenvOpt) (st : ArgsSetenv) :
    parseAllSetenv (xs ++ ys) st =
      (match parseAllSetenv xs st with
       | .error e => .error e
       | .ok st' => parseAllSetenv ys st') := by
  induction xs generalizing st with
  | nil => rfl
  | cons o rest ih =>
    simp only [List.cons_append, parseAllSetenv]
    cases parse_setenv_opt o st <;> simp [ih]

/-! ## The claims -/

/-- A concrete record used to instantiate the hypothesis-bearing
theorems. -/
def sampleEnv : BG_ENVDATA :=
  ⟨7, "vmlinuz-5", "root=/dev/sda1", 0, 2, 30, [("LOC", 1, "abc")], 12345⟩

/-- C1: in an auto-update session the target record is the byte-for-byte
clone of the current latest record with its revision bumped to
`current.revision + 1` (32-bit), and the journal is applied only on top
of that cloned baseline, so every field no journal action touches keeps
the old latest record's value. -/
theorem claim_C1_auto_update_baseline (latest : BG_ENVDATA) (j : List EnvAction) :
    (touches j "revision" = false →
      (auto_update_session latest j).revision = (latest.revision + 1) % 2 ^ 32)
    ∧ (touches j "kernelfile" = false →
      (auto_update_session latest j).kernelfile = latest.kernelfile)
    ∧ (touches j "kernelparams" = false →
      (auto_update_session latest j).kernelparams = latest.kernelparams)
    ∧ (touches j "in_progress" = false →
      (auto_update_session latest j).in_progress = latest.in_progress)
    ∧ (touches j "ustate" = false →
      (auto_update_session latest j).ustate = latest.ustate)
    ∧ (touches j "watchdog_timeout_sec" = false →
      (auto_update_session latest j).watchdog_timeout_sec =
        latest.watchdog_timeout_sec)
    ∧ (∀ k, touches j k = false →
      lookupUservar (auto_update_session latest j).userdata k =
        lookupUservar latest.userdata k) := by
  refine ⟨?_, ?_, ?_, ?_, ?_, ?_, ?_⟩
  · intro h
    exact drainLoop_revision j ⟨cloneForUpdate latest, none, []⟩ (touches_false h)
  · intro h
    exact drainLoop_kernelfile j ⟨cloneForUpdate latest, none, []⟩ (touches_false h)
  · intro h
    exact drainLoop_kernelparams j ⟨cloneForUpdate latest, none, []⟩ (touches_false h)
  · intro h
    exact drainLoop_in_progress j ⟨cloneForUpdate latest, none, []⟩ (touches_false h)
  · intro h
    exact drainLoop_ustate j ⟨cloneForUpdate latest, none, []⟩ (touches_false h)
  · intro h
    exact drainLoop_watchdog j ⟨cloneForUpdate latest, none, []⟩ (touches_false h)
  · intro k h
    exact drainLoop_lookup j ⟨cloneForUpdate latest, none, []⟩ k (touches_false h)

theorem claim_C1_witness :
    (auto_update_session sampleEnv []).revision = (sampleEnv.revision + 1) % 2 ^ 32
    ∧ (auto_update_session sampleEnv []).kernelfile = sampleEnv.kernelfile
    ∧ (auto_update_session sampleEnv []).ustate = sampleEnv.ustate
    ∧ lookupUservar (auto_update_session sampleEnv []).userdata "LOC" =
        lookupUservar sampleEnv.userdata "LOC" := by
  obtain ⟨h1, h2, _, _, h5, _, h7⟩ := claim_C1_auto_update_baseline sampleEnv []
  exact ⟨h1 rfl, h2 rfl, h5 rfl, h7 "LOC" rfl⟩

/-- C2: after every journal replay and before the record is persisted the
stored crc equals the CRC-32 of the serialized record without the crc
field, a caller-supplied crc in the input record never influences the
emitted record, and the stand-alone-file write path emits the same
freshly computed crc. -/
theorem claim_C2_crc_recomputed (st : ProcState) (j : List EnvAction) (c : Nat)
    (fileEnv : Option BG_ENVDATA) (pres : Bool) (r : BG_ENVDATA) :
    ((update_environment st j).env.crc32 =
      crc32 (serializeNoCrc (update_environment st j).env))
    ∧ ((update_environment (setCrcSt st c) j).env = (update_environment st j).env)
    ∧ (dumpenv_to_file fileEnv pres j = some r →
      r.crc32 = crc32 (serializeNoCrc r)) := by
  refine ⟨rfl, ?_, ?_⟩
  · unfold update_environment
    rw [drainLoop_setCrc]
    rfl
  · intro h
    cases pres <;> cases fileEnv <;> simp only [dumpenv_to_file] at h
    · rw [← Option.some_inj.mp h]; rfl
    · rw [← Option.some_inj.mp h]; rfl
    · exact Option.noConfusion h
    · rw [← Option.some_inj.mp h]; rfl

theorem claim_C2_witness :
    ((update_environment ⟨zeroEnv, none, []⟩ []).env).crc32 =
      crc32 (serializeNoCrc ((update_environment ⟨zeroEnv, none, []⟩ []).env)) :=
  (claim_C2_crc_recomputed ⟨zeroEnv, none, []⟩ [] 0 none false
    ((update_environment ⟨zeroEnv, none, []⟩ []).env)).2.2 rfl

/-- C3 counterexample: for the key "ustate" the later of two enqueued Set
actions does not determine the final stored value.  The journal
`[Set("ustate","1"), Set("ustate","x")]` (constructible with
`-x ustate=1 -x ustate=x`) ends with the global state holding 1 — the
later action only reports a parse error — and changing the EARLIER
payload to "2" changes the outcome to 2, while the record itself is
never written by either action. -/
theorem claim_C3_counterexample :
    (drainLoop [⟨"ustate", 0, some "1", .set⟩, ⟨"ustate", 0, some "x", .set⟩]
        ⟨zeroEnv, none, []⟩).2.global = some 1
    ∧ (drainLoop [⟨"ustate", 0, some "2", .set⟩, ⟨"ustate", 0, some "x", .set⟩]
        ⟨zeroEnv, none, []⟩).2.global = some 2
    ∧ (drainLoop [⟨"ustate", 0, some "1", .set⟩, ⟨"ustate", 0, some "x", .set⟩]
        ⟨zeroEnv, none, []⟩).2.env = zeroEnv := by
  exact ⟨by decide, by decide, by decide⟩

/-- C3 (amended): the journal is a FIFO queue — actions are appended at
the tail, replay consumes the queue head-first in insertion order and
leaves it empty.  For every key other than "ustate", the last `Set`
enqueued for the key determines the final stored value when no later
action touches it: the corresponding record field for the reserved field
keys, the user variable otherwise.  A `Set` on "ustate" stores nothing in
the record; it delegates to the global-state setter, so the later `Set`
determines the final global state when its payload parses (on a parse
failure the earlier stored value survives, per the counterexample). -/
theorem claim_C3_journal_fifo :
    (∀ (task : BGENV_TASK) (key : String) (ty : Nat) (d : Option String)
        (j : List EnvAction),
      journal_add_action j task key ty d = (0, j ++ [⟨key, ty, d, task⟩]))
    ∧ (∀ (j1 j2 : List EnvAction) (st : ProcState),
      drainLoop (j1 ++ j2) st = drainLoop j2 (drainLoop j1 st).2)
    ∧ (∀ (j : List EnvAction) (st : ProcState), (drainLoop j st).1 = [])
    ∧ (∀ (j j' : List EnvAction) (st : ProcState) (k v : String) (ty : Nat),
      reservedKey k = false → '\x00' ∉ k.data → touches j' k = false →
      lookupUservar
          ((drainLoop (j ++ ⟨k, ty, some v, .set⟩ :: j') st).2.env.userdata) k =
        some (ty, v))
    ∧ (∀ (j j' : List EnvAction) (st : ProcState) (v : String) (ty : Nat),
      touches j' "kernelfile" = false →
      (drainLoop (j ++ ⟨"kernelfile", ty, some v, .set⟩ :: j') st).2.env.kernelfile
        = v)
    ∧ (∀ (j j' : List EnvAction) (st : ProcState) (v : String) (ty : Nat),
      touches j' "kernelparams" = false →
      (drainLoop (j ++ ⟨"kernelparams", ty, some v, .set⟩ :: j') st).2.env.kernelparams
        = v)
    ∧ (∀ (j j' : List EnvAction) (st : ProcState) (v : String) (ty : Nat),
      touches j' "revision" = false →
      (drainLoop (j ++ ⟨"revision", ty, some v, .set⟩ :: j') st).2.env.revision
        = (((strtol v).val) % (2 ^ 32 : Int)).toNat)
    ∧ (∀ (j j' : List EnvAction) (st : ProcState) (v : String) (ty : Nat),
      touches j' "watchdog_timeout_sec" = false →
      (drainLoop (j ++ ⟨"watchdog_timeout_sec", ty, some v, .set⟩ :: j')
          st).2.env.watchdog_timeout_sec
        = (((strtol v).val) % (2 ^ 32 : Int)).toNat)
    ∧ (∀ (j j' : List EnvAction) (st : ProcState) (v : String) (ty : Nat),
      touches j' "in_progress" = false →
      (drainLoop (j ++ ⟨"in_progress", ty, some v, .set⟩ :: j') st).2.env.in_progress
        = (((strtol v).val) % (2 ^ 8 : Int)).toNat)
    ∧ (∀ (j j' : List EnvAction) (st : ProcState) (s : String) (ty : Nat),
      (∀ a ∈ j', a.key ≠ "ustate" ∧ '\x00' ∉ a.key.data) →
      (strtol s).erange = false → (strtol s).consumed ≠ 0 →
      (drainLoop (j ++ ⟨"ustate", ty, some s, .set⟩ :: j') st).2.global
        = some (((strtol s).val % (65536 : Int)).toNat))
    ∧ (∀ (st : ProcState) (s : String) (ty : Nat),
      (journal_process_action st ⟨"ustate", ty, some s, .set⟩).env = st.env) := by
  refine ⟨fun _ _ _ _ _ => rfl, drainLoop_append, drainLoop_fst, ?_, ?_, ?_, ?_, ?_,
    ?_, ?_, ?_⟩
  · intro j j' st k v ty hres hnul htouch
    rw [drainLoop_append, drainLoop_cons]
    rw [drainLoop_lookup j' _ k (touches_false htouch)]
    have hne : k ≠ "ustate" := (reservedKey_split k hres).2.2.2.2.2
    rw [jpa_env_eq _ _ rfl (strncmp_ustate_false k hnul hne)]
    show lookupUservar (bgenv_set _ k ty ((some v).getD "")).userdata k = _
    rw [bgenv_set_unreserved _ _ _ _ hres]
    exact setUservar_lookup_self _ _ _ _
  · intro j j' st v ty htouch
    rw [drainLoop_append, drainLoop_cons,
      drainLoop_kernelfile j' _ (touches_false htouch), jpa_set_kernelfile]
  · intro j j' st v ty htouch
    rw [drainLoop_append, drainLoop_cons,
      drainLoop_kernelparams j' _ (touches_false htouch), jpa_set_kernelparams]
  · intro j j' st v ty htouch
    rw [drainLoop_append, drainLoop_cons,
      drainLoop_revision j' _ (touches_false htouch), jpa_set_revision]
  · intro j j' st v ty htouch
    rw [drainLoop_append, drainLoop_cons,
      drainLoop_watchdog j' _ (touches_false htouch), jpa_set_watchdog]
  · intro j j' st v ty htouch
    rw [drainLoop_append, drainLoop_cons,
      drainLoop_in_progress j' _ (touches_false htouch), jpa_set_in_progress]
  · intro j j' st s ty hj' he hc
    rw [drainLoop_append, drainLoop_cons, drainLoop_global j' _ hj',
      jpa_ustate_success _ _ _ he hc]
  · intro st s ty
    exact jpa_special_env st ⟨"ustate", ty, some s, .set⟩ rfl (by rfl)

theorem claim_C3_witness :
    lookupUservar
        ((drainLoop [⟨"FOO", 1, some "a", .set⟩, ⟨"FOO", 1, some "b", .set⟩]
          ⟨zeroEnv, none, []⟩).2.env.userdata) "FOO" = some (1, "b")
    ∧ (drainLoop [⟨"kernelfile", 0, some "k1", .set⟩, ⟨"kernelfile", 0, some "k2", .set⟩]
        ⟨zeroEnv, none, []⟩).2.env.kernelfile = "k2"
    ∧ (drainLoop [⟨"revision", 0, some "5", .set⟩, ⟨"revision", 0, some "8", .set⟩]
        ⟨zeroEnv, none, []⟩).2.env.revision = 8
    ∧ (drainLoop [⟨"ustate", 0, some "1", .set⟩, ⟨"ustate", 0, some "2", .set⟩]
        ⟨zeroEnv, none, []⟩).2.global = some 2 := by
  refine ⟨?_, ?_, ?_, ?_⟩
  · exact claim_C3_journal_fifo.2.2.2.1 [⟨"FOO", 1, some "a", .set⟩] []
      ⟨zeroEnv, none, []⟩ "FOO" "b" 1 rfl (by decide) rfl
  · exact claim_C3_journal_fifo.2.2.2.2.1 [⟨"kernelfile", 0, some "k1", .set⟩] []
      ⟨zeroEnv, none, []⟩ "k2" 0 rfl
  · exact claim_C3_journal_fifo.2.2.2.2.2.2.1 [⟨"revision", 0, some "5", .set⟩] []
      ⟨zeroEnv, none, []⟩ "8" 0 rfl
  · exact claim_C3_journal_fifo.2.2.2.2.2.2.2.2.2.1 [⟨"ustate", 0, some "1", .set⟩]
      [] ⟨zeroEnv, none, []⟩ "2" 0 (by simp) (by decide) (by decide)

/-- C4 counterexample: the claim says the journal's ustate parse rejects
non-numeric trailing characters; the replay of `Set("ustate", "1x")`
instead succeeds — the global state is set to 1 and no error is
reported — because the failure test of bg_setenv.c:192 never looks at
`*tmp`. -/
theorem claim_C4_counterexample :
    (journal_process_action ⟨zeroEnv, none, []⟩
        ⟨"ustate", 0, some "1x", .set⟩).global = some 1
    ∧ (journal_process_action ⟨zeroEnv, none, []⟩
        ⟨"ustate", 0, some "1x", .set⟩).errors = [] := by
  exact ⟨by decide, by decide⟩

/-- C4 (amended): the journal's ustate parse rejects empty/non-numeric
input (no digits consumed) and values outside the platform `long` range;
on such a failure it reports the error and mutates neither the record nor
the global state, and replay continues with the remaining actions.
Trailing non-numeric characters after a valid numeric prefix are NOT
rejected: the action succeeds with the value of the numeric prefix. -/
theorem claim_C4_ustate_parse (st : ProcState) (ty : Nat) (s : String)
    (rest : List EnvAction) :
    (((strtol s).erange = true ∨ (strtol s).consumed = 0) →
      journal_process_action st ⟨"ustate", ty, some s, .set⟩ =
          { st with errors := st.errors ++ ["Invalid value for ustate: " ++ s] }
        ∧ drainLoop (⟨"ustate", ty, some s, .set⟩ :: rest) st =
            drainLoop rest
              { st with errors := st.errors ++ ["Invalid value for ustate: " ++ s] })
    ∧ ((strtol s).erange = false → (strtol s).consumed ≠ 0 →
      journal_process_action st ⟨"ustate", ty, some s, .set⟩ =
        { st with global := some (((strtol s).val % (65536 : Int)).toNat) }) := by
  constructor
  · intro hfail
    have h1 : journal_process_action st ⟨"ustate", ty, some s, .set⟩ =
        { st with errors := st.errors ++ ["Invalid value for ustate: " ++ s] } := by
      unfold journal_process_action
      dsimp only [Option.getD]
      rw [if_pos (by decide), if_pos ((ustate_parse_fail_iff s).mpr hfail)]
    exact ⟨h1, by rw [drainLoop_cons, h1]⟩
  · intro he hc
    have hcond : ¬ ((((strtol s).erange = true ∧
        ((strtol s).val = LONG_MAX ∨ (strtol s).val = LONG_MIN)) ∨
          ((strtol s).erange = true ∧ (strtol s).val = 0) ∨
          (strtol s).consumed = 0)) := by
      intro hx
      rcases (ustate_parse_fail_iff s).mp hx with h | h
      · rw [he] at h; exact Bool.noConfusion h
      · exact hc h
    unfold journal_process_action
    dsimp only [Option.getD]
    rw [if_pos (by decide), if_neg hcond]
    rfl

theorem claim_C4_witness :
    journal_process_action ⟨zeroEnv, none, []⟩ ⟨"ustate", 0, some "", .set⟩ =
      ⟨zeroEnv, none, ["Invalid value for ustate: "]⟩
    ∧ journal_process_action ⟨zeroEnv, none, []⟩ ⟨"ustate", 0, some "5", .set⟩ =
      ⟨zeroEnv, some 5, []⟩ := by
  constructor
  · exact ((claim_C4_ustate_parse ⟨zeroEnv, none, []⟩ 0 "" []).1
      (Or.inr (by decide))).1
  · exact (claim_C4_ustate_parse ⟨zeroEnv, none, []⟩ 0 "5" []).2 (by decide) (by decide)

/-- C5 counterexample: the claim says an out-of-range numeric ustate
formats as the text of the maximum valid state FAILED; `ustate2str 99`
actually yields "UNKNOWN" because the clamp bound `USTATE_MAX` is the
index of the UNKNOWN sentinel, one past FAILED. -/
theorem claim_C5_counterexample :
    ustate2str 99 ≠ "FAILED" ∧ ustate2str 99 = "UNKNOWN" := by
  constructor
  · decide
  · decide

/-- C5 (amended): for every numeric ustate value above the valid
persisted range 0..3, formatting yields the text of the UNKNOWN sentinel
(the value is clamped to `USTATE_MAX` before the table lookup, which
therefore never indexes out of bounds). -/
theorem claim_C5_format_clamp (u : Nat) (h : 3 < u % 256) :
    ustate2str u = "UNKNOWN" ∧
      (if USTATE_MAX < u % 256 then USTATE_MAX else u % 256) < ustatemap.length := by
  have hm : (if USTATE_MAX < u % 256 then USTATE_MAX else u % 256) = 4 := by
    by_cases h4 : USTATE_MAX < u % 256
    · rw [if_pos h4]
      decide
    · rw [if_neg h4]
      simp only [USTATE_MAX] at h4
      omega
  constructor
  · show ustatemap.getD (if USTATE_MAX < u % 256 then USTATE_MAX else u % 256) ""
        = "UNKNOWN"
    rw [hm]
    decide
  · rw [hm]
    decide

theorem claim_C5_witness :
    ustate2str 99 = "UNKNOWN" ∧
      (if USTATE_MAX < 99 % 256 then USTATE_MAX else 99 % 256) < ustatemap.length :=
  claim_C5_format_clamp 99 (by decide)

/-- C6: textual ustate parsing is a case-insensitive prefix match against
the canonical names OK/INSTALLED/TESTING/FAILED with UNKNOWN for
unmatched input; at the `-s` boundary both "testing" and "2" enqueue the
TESTING journal action, while the out-of-range number "99" is rejected
before anything is enqueued. -/
theorem claim_C6_ustate_parse_boundary :
    (∀ s : String, str2ustate s = ustateSpecParse s)
    ∧ (∀ st : ArgsSetenv, parse_setenv_opt (.optS "testing") st =
        .ok { st with journal := st.journal ++ [⟨"ustate", 0, some "2", .set⟩] })
    ∧ (∀ st : ArgsSetenv, parse_setenv_opt (.optS "2") st =
        .ok { st with journal := st.journal ++ [⟨"ustate", 0, some "2", .set⟩] })
    ∧ (∀ st : ArgsSetenv, parse_setenv_opt (.optS "99") st = .error 1) :=
  ⟨fun _ => rfl, fun _ => rfl, fun _ => rfl, fun _ => rfl⟩

/-- C7: a Delete journal action writes the one-byte empty string for the
key instead of physically removing the entry, so after
`[Set(k,"x"), Delete(k)]` the key is still present with an empty-string
value. -/
theorem claim_C7_delete_sets_empty (st : ProcState) (k x : String)
    (ty1 ty2 : Nat) (hres : reservedKey k = false) :
    lookupUservar
        ((drainLoop [⟨k, ty1, some x, .set⟩, ⟨k, ty2, none, .del⟩]
          st).2.env.userdata) k = some (ty2, "") := by
  rw [drainLoop_cons, drainLoop_cons]
  show lookupUservar
      (journal_process_action _ ⟨k, ty2, none, .del⟩).env.userdata k = _
  rw [jpa_del_eq]
  show lookupUservar (bgenv_set _ k ty2 "").userdata k = _
  rw [bgenv_set_unreserved _ _ _ _ hres]
  exact setUservar_lookup_self _ _ _ _

theorem claim_C7_witness :
    lookupUservar
        ((drainLoop [⟨"FOO", 1, some "x", .set⟩, ⟨"FOO", 2, none, .del⟩]
          ⟨zeroEnv, none, []⟩).2.env.userdata) "FOO" = some (2, "") :=
  claim_C7_delete_sets_empty ⟨zeroEnv, none, []⟩ "FOO" "x" 1 2 rfl

/-- C8: an explicit `-p` index is accepted exactly when, after successful
integer parsing, `0 <= i < ENV_NUM_CONFIG_PARTS`; a malformed or
out-of-range index fails at option-parsing time, and a parse error makes
`bg_setenv` exit before any environment initialization or slot I/O. -/
theorem claim_C8_part_index_validation :
    (∀ (arg : String) (st : ArgsSetenv) (i : Int),
      parse_int arg = some i → 0 ≤ i → i < (ENV_NUM_CONFIG_PARTS : Int) →
      parse_setenv_opt (.optP arg) st =
        .ok { st with which_part := i.toNat, part_specified := true })
    ∧ (∀ (arg : String) (st : ArgsSetenv),
      (∃ st', parse_setenv_opt (.optP arg) st = .ok st') ↔
        (∃ i, parse_int arg = some i ∧ 0 ≤ i ∧ i < (ENV_NUM_CONFIG_PARTS : Int)))
    ∧ (∀ (pre post : List SetenvOpt) (arg : String) (st1 : ArgsSetenv),
      parseAllSetenv pre defaultArgs = .ok st1 →
      parse_setenv_opt (.optP arg) st1 = .error 1 →
      parseAllSetenv (pre ++ .optP arg :: post) defaultArgs = .error 1)
    ∧ (∀ (opts : List SetenvOpt) (store : List BG_ENVDATA)
        (fileEnv : Option BG_ENVDATA) (e : Nat),
      parseAllSetenv opts defaultArgs = .error e →
      bg_setenv_run opts store fileEnv = ⟨e, false, none, none⟩) := by
  have hpeq : ∀ (arg : String) (st : ArgsSetenv),
      parse_setenv_opt (.optP arg) st =
        (match parse_int arg with
         | none => .error 1
         | some i =>
           if 0 ≤ i ∧ i < (ENV_NUM_CONFIG_PARTS : Int) then
             .ok { st with which_part := i.toNat, part_specified := true }
           else .error 1) := fun _ _ => rfl
  refine ⟨?_, ?_, ?_, ?_⟩
  · intro arg st i hp h0 hlt
    rw [hpeq, hp]
    exact if_pos ⟨h0, hlt⟩
  · intro arg st
    constructor
    · rintro ⟨st', hok⟩
      rw [hpeq] at hok
      cases hp : parse_int arg with
      | none => rw [hp] at hok; exact Except.noConfusion hok
      | some i =>
        rw [hp] at hok
        dsimp only at hok
        by_cases hr : 0 ≤ i ∧ i < (ENV_NUM_CONFIG_PARTS : Int)
        · exact ⟨i, rfl, hr⟩
        · rw [if_neg hr] at hok
          exact Except.noConfusion hok
    · rintro ⟨i, hp, h0, hlt⟩
      refine ⟨{ st with which_part := i.toNat, part_specified := true }, ?_⟩
      rw [hpeq, hp]
      exact if_pos ⟨h0, hlt⟩
  · intro pre post arg st1 hpre hbad
    rw [parseAllSetenv_append, hpre]
    show parseAllSetenv (.optP arg :: post) st1 = .error 1
    unfold parseAllSetenv
    rw [hbad]
  · intro opts store fileEnv e herr
    cases opts with
    | nil => exact Except.noConfusion herr
    | cons o rest =>
      unfold bg_setenv_run
      rw [herr]

theorem claim_C8_witness :
    parse_setenv_opt (.optP "1") defaultArgs =
      .ok { defaultArgs with which_part := 1, part_specified := true }
    ∧ parseAllSetenv [.optP "9"] defaultArgs = .error 1
    ∧ bg_setenv_run [.optP "9"] [] none = ⟨1, false, none, none⟩ := by
  refine ⟨?_, ?_, ?_⟩
  · exact claim_C8_part_index_validation.1 "1" defaultArgs 1 (by decide) (by decide)
      (by decide)
  · exact claim_C8_part_index_validation.2.2.1 [] [] "9" defaultArgs rfl rfl
  · exact claim_C8_part_index_validation.2.2.2 [.optP "9"] [] none 1 rfl

/-- C9: the special-cased global-state path of the journal replay is
taken if and only if the action's key is exactly "ustate" — the
`strncmp` compares `strlen("ustate") + 1` characters, including the
terminator — so a key merely starting with "ustate", such as "ustate2",
is written to the record as an ordinary variable. -/
theorem claim_C9_exact_ustate_match (st : ProcState) (a : EnvAction)
    (htask : a.task = .set) (hnul : '\x00' ∉ a.key.data) :
    (a.key = "ustate" → (journal_process_action st a).env = st.env)
    ∧ (a.key ≠ "ustate" →
      journal_process_action st a =
        { st with env := bgenv_set st.env a.key a.type (a.data.getD "") }) := by
  constructor
  · intro hk
    exact jpa_special_env st a htask ((strncmp_ustate_iff a.key hnul).mpr hk)
  · intro hk
    exact jpa_env_eq st a htask (strncmp_ustate_false a.key hnul hk)

theorem claim_C9_witness :
    journal_process_action ⟨zeroEnv, none, []⟩ ⟨"ustate2", 7, some "1", .set⟩ =
      ⟨bgenv_set zeroEnv "ustate2" 7 "1", none, []⟩
    ∧ (journal_process_action ⟨zeroEnv, none, []⟩
        ⟨"ustate", 0, some "1", .set⟩).env = zeroEnv := by
  constructor
  · exact (claim_C9_exact_ustate_match ⟨zeroEnv, none, []⟩
      ⟨"ustate2", 7, some "1", .set⟩ rfl (by decide)).2 (by decide)
  · exact (claim_C9_exact_ustate_match ⟨zeroEnv, none, []⟩
      ⟨"ustate", 0, some "1", .set⟩ rfl (by decide)).1 rfl

/-- C10: for a `-x` argument with a key but no value token a Delete
action carrying the default/deleted type flags and no data is enqueued
and success is returned; with no key token at all nothing is enqueued and
success is still returned. -/
theorem claim_C10_uservar_tokens (arg : String) (j : List EnvAction) :
    (strtokTokens arg = [] → set_uservars j arg = (0, j))
    ∧ (∀ key, strtokTokens arg = [key] →
      set_uservars j arg =
        (0, j ++ [⟨key, USERVAR_TYPE_DEFAULT ||| USERVAR_TYPE_DELETED,
          none, .del⟩])) := by
  constructor
  · intro h
    unfold set_uservars
    rw [h]
  · intro key h
    unfold set_uservars
    rw [h]
    rfl

theorem claim_C10_witness :
    set_uservars [] "KEY=" =
      (0, [⟨"KEY", USERVAR_TYPE_DEFAULT ||| USERVAR_TYPE_DELETED, none, .del⟩])
    ∧ set_uservars [] "=" = (0, []) := by
  constructor
  · exact (claim_C10_uservar_tokens "KEY=" []).2 "KEY" (by decide)
  · exact (claim_C10_uservar_tokens "=" []).1 (by decide)

end BgSetenv
